import Mathlib

/-!
Shallow embedding of the Dwebble WebSocket server facade
(`Source/DwebbleWebSocket/WebSocketServer.cpp`; the two variants under
`Source/Dwebble/` are behaviourally identical except that their config
carries an already comma-joined subprotocol string).

The network engine (`dwebble_rws_*`) is an external collaborator reached
through an opaque handle; its replies are supplied as oracle arguments to
each facade operation, and every call the facade makes across the boundary
is recorded in an `EngineCall` effect trace, so that resource accounting
(create/destroy/free) is visible in the model.
-/

namespace Dwebble

/-- Facade result enumeration `EDwebbleWSResult` (DwebbleTypes.h). -/
inductive EResult where
  | Ok
  | InvalidHandle
  | InvalidParam
  | AlreadyRunning
  | NotRunning
  | BindFailed
  | TlsError
  | RuntimeError
  | SendFailed
  | ConnectionClosed
deriving DecidableEq, Repr

/-- Engine-boundary result code `DwebbleWSResult` (FFI enum). A C++ enum
class variable can hold any value of its underlying integer type, so the
recognised named outcomes are completed by an `unknown` constructor that
carries an out-of-range underlying value; the `switch` default arm in
`ConvertResult` corresponds to `unknown`. -/
inductive DwebbleWSResult where
  | Ok
  | InvalidHandle
  | InvalidParam
  | AlreadyRunning
  | NotRunning
  | BindFailed
  | TlsError
  | RuntimeError
  | SendFailed
  | ConnectionClosed
  | unknown (n : Int)
deriving DecidableEq, Repr

/-- Facade event type enumeration `EDwebbleWSEventType`. -/
inductive EEventType where
  | None
  | ClientConnected
  | ClientDisconnected
  | MessageReceived
  | Error
deriving DecidableEq, Repr

/-- Engine-boundary event type `DwebbleWSEventType`, with `unknown` for
out-of-range underlying values (the `switch` default arm). -/
inductive DwebbleWSEventType where
  | None
  | ClientConnected
  | ClientDisconnected
  | MessageReceived
  | Error
  | unknown (n : Int)
deriving DecidableEq, Repr

/-- `FDwebbleWebSocketServerImpl::ConvertResult` (WebSocketServer.cpp,
lines 170-186): the switch over the engine result with a
`default: return RuntimeError` arm. -/
def ConvertResult (Result : DwebbleWSResult) : EResult :=
  match Result with
  | .Ok => .Ok
  | .InvalidHandle => .InvalidHandle
  | .InvalidParam => .InvalidParam
  | .AlreadyRunning => .AlreadyRunning
  | .NotRunning => .NotRunning
  | .BindFailed => .BindFailed
  | .TlsError => .TlsError
  | .RuntimeError => .RuntimeError
  | .SendFailed => .SendFailed
  | .ConnectionClosed => .ConnectionClosed
  | .unknown _ => .RuntimeError

/-- `FDwebbleWebSocketServerImpl::ConvertEventType` (WebSocketServer.cpp,
lines 188-200): the switch over the engine event type with a
`default: return None` arm. -/
def ConvertEventType (t : DwebbleWSEventType) : EEventType :=
  match t with
  | .None => .None
  | .ClientConnected => .ClientConnected
  | .ClientDisconnected => .ClientDisconnected
  | .MessageReceived => .MessageReceived
  | .Error => .Error
  | .unknown _ => .None

/-- Host-facing configuration `FDwebbleWSServerConfig` (DwebbleTypes.h).
`Port` is an `int32`; `Subprotocols` is a `TArray<FString>`. -/
structure FServerConfig where
  Port : Int
  BindAddress : String
  Subprotocols : List String
  TlsCertPath : String
  TlsKeyPath : String
deriving DecidableEq, Repr

/-- Engine-boundary configuration `DwebbleWSServerConfig` (FFI struct).
`port` is a `uint16_t`; the three `const char*` fields are `none` when the
C++ code passes `nullptr`. -/
structure FfiConfig where
  port : Nat
  bind_address : String
  subprotocols : Option String
  tls_cert_path : Option String
  tls_key_path : Option String
deriving DecidableEq, Repr

/-- Configuration translation performed inside `Start` (WebSocketServer.cpp,
lines 36-51): `static_cast<uint16_t>(Config.Port)` is the C++
signed-to-unsigned conversion, i.e. the value modulo 2^16 (`Int.emod` of a
positive modulus is that non-negative representative); subprotocols are
joined with "," and each of the three optional strings becomes `nullptr`
exactly when the host-side value `IsEmpty()`. -/
def toFfiConfig (Config : FServerConfig) : FfiConfig :=
  { port := (Config.Port.emod 65536).toNat
  , bind_address := Config.BindAddress
  , subprotocols :=
      if Config.Subprotocols.isEmpty then none
      else some (String.intercalate "," Config.Subprotocols)
  , tls_cert_path := if Config.TlsCertPath.isEmpty then none else some Config.TlsCertPath
  , tls_key_path := if Config.TlsKeyPath.isEmpty then none else some Config.TlsKeyPath }

/-- Calls the facade makes across the engine boundary, recorded as an
effect trace. `create` carries the translated config it was given and the
handle the engine returned (`none` = the engine returned null). -/
inductive EngineCall where
  | create (cfg : FfiConfig) (returned : Option Nat)
  | start (h : Nat)
  | stop (h : Nat)
  | destroy (h : Nat)
  | getPort (h : Nat)
  | getConnectionCount (h : Nat)
  | info (h : Nat)
  | freeString
  | send (h : Nat) (connId : Nat) (data : List Nat)
  | sendText (h : Nat) (connId : Nat) (text : String)
  | disconnect (h : Nat) (connId : Nat)
  | poll (h : Nat)
deriving DecidableEq, Repr

/-- Member state of `FDwebbleWebSocketServerImpl`: the stored config, the
opaque `ServerHandle` (`none` = nullptr) and the `bIsRunning` flag. -/
structure FacadeState where
  Config : FServerConfig
  ServerHandle : Option Nat
  bIsRunning : Bool
deriving DecidableEq, Repr

/-- The constructor (WebSocketServer.cpp, lines 12-17): stores the config,
sets `ServerHandle(nullptr)` and `bIsRunning(false)`. `IServer::Create`
only invokes this constructor; it makes no engine call. -/
def FacadeState.construct (Config : FServerConfig) : FacadeState :=
  { Config := Config, ServerHandle := none, bIsRunning := false }

/-- Engine replies consumed by one `Start` call: what
`dwebble_rws_server_create` returned (`none` = null) and what
`dwebble_rws_server_start` returned (only consulted when create
succeeded). -/
structure StartOracle where
  createResult : Option Nat
  startResult : DwebbleWSResult
deriving DecidableEq, Repr

/-- `FDwebbleWebSocketServerImpl::Start` (WebSocketServer.cpp, lines
29-66). Early-out `AlreadyRunning` when `bIsRunning`; otherwise translate
the config, call `dwebble_rws_server_create` (assigning its result to
`ServerHandle`, even when null), return `RuntimeError` if the handle is
null, else call `dwebble_rws_server_start`, set `bIsRunning` on `Ok`, and
return the converted result. -/
def Start (s : FacadeState) (o : StartOracle) :
    FacadeState × EResult × List EngineCall :=
  if s.bIsRunning then (s, .AlreadyRunning, [])
  else
    let FfiConfig := toFfiConfig s.Config
    match o.createResult with
    | none =>
        ({ s with ServerHandle := none }, .RuntimeError, [.create FfiConfig none])
    | some h =>
        if o.startResult = DwebbleWSResult.Ok then
          ({ s with ServerHandle := some h, bIsRunning := true }, .Ok,
            [.create FfiConfig (some h), .start h])
        else
          ({ s with ServerHandle := some h }, ConvertResult o.startResult,
            [.create FfiConfig (some h), .start h])

/-- `FDwebbleWebSocketServerImpl::Stop` (WebSocketServer.cpp, lines 68-79).
`if (!bIsRunning || !ServerHandle) return NotRunning;` else call
`dwebble_rws_server_stop`, clear `bIsRunning` unconditionally and return
the converted result. The handle itself is not released. -/
def Stop (s : FacadeState) (o : DwebbleWSResult) :
    FacadeState × EResult × List EngineCall :=
  match s.ServerHandle, s.bIsRunning with
  | some h, true => ({ s with bIsRunning := false }, ConvertResult o, [.stop h])
  | _, _ => (s, .NotRunning, [])

/-- `FDwebbleWebSocketServerImpl::IsRunning` (WebSocketServer.cpp, lines
81-84). -/
def IsRunning (s : FacadeState) : Bool :=
  s.bIsRunning

/-- The destructor (WebSocketServer.cpp, lines 19-27): when a handle is
held, call `Stop()` ignoring its result, then `dwebble_rws_server_destroy`
and null the handle; when no handle is held, do nothing. -/
def Destroy (s : FacadeState) (o : DwebbleWSResult) :
    FacadeState × List EngineCall :=
  match s.ServerHandle with
  | none => (s, [])
  | some h =>
      ({ (Stop s o).1 with ServerHandle := none },
        (Stop s o).2.2 ++ [.destroy h])

/-- The C++ conversion `static_cast<int32>` applied to a `uint32` engine
value: reduce modulo 2^32 and reinterpret as two's complement. -/
def int32OfUInt32 (n : Nat) : Int :=
  let m := n % 4294967296
  if m < 2147483648 then (m : Int) else (m : Int) - 4294967296

/-- `FDwebbleWebSocketServerImpl::GetPort` (WebSocketServer.cpp, lines
86-90): 0 without a handle, else the engine-reported port. -/
def GetPort (s : FacadeState) (o : Nat) : Int × List EngineCall :=
  match s.ServerHandle with
  | none => (0, [])
  | some h => ((o : Int), [.getPort h])

/-- `FDwebbleWebSocketServerImpl::GetConnectionCount` (WebSocketServer.cpp,
lines 92-96): 0 without a handle, else the engine count cast to `int32`. -/
def GetConnectionCount (s : FacadeState) (o : Nat) : Int × List EngineCall :=
  match s.ServerHandle with
  | none => (0, [])
  | some h => (int32OfUInt32 o, [.getConnectionCount h])

/-- `FDwebbleWebSocketServerImpl::Info` (WebSocketServer.cpp, lines
98-108): empty string without a handle; otherwise call
`dwebble_rws_server_info` (oracle reply `none` = it returned null), copy
the returned string and release it with `dwebble_rws_free_string` before
returning. -/
def Info (s : FacadeState) (o : Option String) : String × List EngineCall :=
  match s.ServerHandle with
  | none => ("", [])
  | some h =>
      match o with
      | none => ("", [.info h])
      | some str => (str, [.info h, .freeString])

/-- `FDwebbleWebSocketServerImpl::Send` (WebSocketServer.cpp, lines
110-122): `InvalidHandle` without a handle, else forward to
`dwebble_rws_server_send` and convert the engine result. -/
def Send (s : FacadeState) (ConnectionId : Nat) (Data : List Nat)
    (o : DwebbleWSResult) : EResult × List EngineCall :=
  match s.ServerHandle with
  | none => (.InvalidHandle, [])
  | some h => (ConvertResult o, [.send h ConnectionId Data])

/-- `FDwebbleWebSocketServerImpl::SendText` (WebSocketServer.cpp, lines
207-218): `InvalidHandle` without a handle, else forward to
`dwebble_rws_server_send_text` and convert the engine result. -/
def SendText (s : FacadeState) (ConnectionId : Nat) (Text : String)
    (o : DwebbleWSResult) : EResult × List EngineCall :=
  match s.ServerHandle with
  | none => (.InvalidHandle, [])
  | some h => (ConvertResult o, [.sendText h ConnectionId Text])

/-- `FDwebbleWebSocketServerImpl::Disconnect` (WebSocketServer.cpp, lines
126-132): `InvalidHandle` without a handle, else forward to
`dwebble_rws_server_disconnect` and convert the engine result. -/
def Disconnect (s : FacadeState) (ConnectionId : Nat)
    (o : DwebbleWSResult) : EResult × List EngineCall :=
  match s.ServerHandle with
  | none => (.InvalidHandle, [])
  | some h => (ConvertResult o, [.disconnect h ConnectionId])

/-- Engine-boundary event struct `DwebbleWSEvent` (FFI). `data` is the
engine-owned byte buffer (`none` = null pointer) and `data_len` the length
the engine reports for it (well-formed engine replies have
`data_len ≤ data.length`); `error_message` is the engine-owned error
string (`none` = null). -/
structure DwebbleWSEvent where
  event_type : DwebbleWSEventType
  connection_id : Nat
  data : Option (List Nat)
  data_len : Nat
  error_message : Option String
deriving DecidableEq, Repr

/-- Host-owned event value `FDwebbleWSEvent` (DwebbleTypes.h). -/
structure FEvent where
  EventType : EEventType
  ConnectionId : Nat
  Data : List Nat
  ErrorMessage : String
deriving DecidableEq, Repr

/-- `FDwebbleWebSocketServerImpl::PollEvent` (WebSocketServer.cpp, lines
134-167): false without a handle; otherwise call
`dwebble_rws_server_poll` (oracle reply `none` = no pending event). On an
event, convert the type, copy the connection id, `Memcpy` `data_len` bytes
out of the buffer when `data` is non-null and `data_len > 0` (else empty
the array), and convert the error string when non-null (else empty it).
Returns the filled out-event as `some`; no engine buffer is freed. -/
def PollEvent (s : FacadeState) (o : Option DwebbleWSEvent) :
    Option FEvent × List EngineCall :=
  match s.ServerHandle with
  | none => (none, [])
  | some h =>
      match o with
      | none => (none, [.poll h])
      | some e =>
          let Data : List Nat :=
            match e.data with
            | some buf => if e.data_len > 0 then buf.take e.data_len else []
            | none => []
          let ErrorMessage : String :=
            match e.error_message with
            | some m => m
            | none => ""
          (some { EventType := ConvertEventType e.event_type
                , ConnectionId := e.connection_id
                , Data := Data
                , ErrorMessage := ErrorMessage }, [.poll h])

/-- One host-driven call on the facade together with the engine replies it
consumes. Only `Start` and `Stop` ever change the member state
(`ServerHandle`, `bIsRunning`), so traces over these two operations reach
every state reachable before destruction; the query and data operations
are applied to such reachable states in the theorems. -/
inductive FacadeOp where
  | start (o : StartOracle)
  | stop (o : DwebbleWSResult)
deriving DecidableEq, Repr

/-- Apply one lifecycle operation, returning the new state and the engine
calls it made. -/
def step (s : FacadeState) (op : FacadeOp) : FacadeState × List EngineCall :=
  match op with
  | .start o => ((Start s o).1, (Start s o).2.2)
  | .stop o => ((Stop s o).1, (Stop s o).2.2)

/-- Run a sequence of lifecycle operations from a state, accumulating the
engine-call trace. -/
def run (s : FacadeState) : List FacadeOp → FacadeState × List EngineCall
  | [] => (s, [])
  | op :: rest =>
      ((run (step s op).1 rest).1, (step s op).2 ++ (run (step s op).1 rest).2)

/-- Handles the engine handed out via `dwebble_rws_server_create` in a
trace. -/
def createdHandles (l : List EngineCall) : List Nat :=
  l.filterMap fun c =>
    match c with
    | .create _ (some h) => some h
    | _ => none

/-- Handles released via `dwebble_rws_server_destroy` in a trace. -/
def destroyedHandles (l : List EngineCall) : List Nat :=
  l.filterMap fun c =>
    match c with
    | .destroy h => some h
    | _ => none

/-- Modelled from the spec: the outcome of `dwebble_rws_server_start` (the
engine's code is not under src/) when the translated configuration carries
exactly one of the TLS cert/key paths — per the spec, "TLS requested with
an empty certificate path" is an engine-side `TlsError`. -/
def engineTlsMismatchOutcome : DwebbleWSResult := .TlsError

/-- Concrete default-shaped configuration (the `FDwebbleWSServerConfig`
field defaults): loopback bind, no subprotocols, no TLS. -/
def sampleConfig : FServerConfig :=
  { Port := 0, BindAddress := "127.0.0.1", Subprotocols := []
  , TlsCertPath := "", TlsKeyPath := "" }

/-- Concrete configuration with exactly one TLS path present (cert set,
key empty). -/
def mismatchConfig : FServerConfig :=
  { Port := 8080, BindAddress := "127.0.0.1", Subprotocols := []
  , TlsCertPath := "cert.pem", TlsKeyPath := "" }

/-- Concrete lifecycle trace Start-Stop-Start: the engine hands out handle
1, then 2, replying Ok to every call. -/
def restartTrace : List FacadeOp :=
  [.start ⟨some 1, .Ok⟩, .stop .Ok, .start ⟨some 2, .Ok⟩]

/-- Every engine call made over the whole facade lifetime for
`restartTrace`: the lifecycle calls followed by the destructor's calls. -/
def restartTraceCalls : List EngineCall :=
  (run (FacadeState.construct sampleConfig) restartTrace).2 ++
    (Destroy (run (FacadeState.construct sampleConfig) restartTrace).1 .Ok).2

/-- Facade state after one successful Start on the sample config (handle
1 held, running). -/
def pollExampleState : FacadeState :=
  (run (FacadeState.construct sampleConfig) [.start ⟨some 1, .Ok⟩]).1

/-- Concrete engine event: a three-byte message from connection 5, with
an engine-owned data buffer and no error string. -/
def pollExampleEvent : DwebbleWSEvent :=
  { event_type := .MessageReceived, connection_id := 5
  , data := some [1, 2, 3], data_len := 3, error_message := none }

/-- C6: the facade's engine-result mapping is total: each of the ten
recognized engine outcomes maps to the same-named facade code, and every
unrecognized engine value maps to `RuntimeError`; being a total Lean
function, the mapping never fails for any input. -/
theorem convert_result_total :
    ConvertResult DwebbleWSResult.Ok = EResult.Ok ∧
    ConvertResult DwebbleWSResult.InvalidHandle = EResult.InvalidHandle ∧
    ConvertResult DwebbleWSResult.InvalidParam = EResult.InvalidParam ∧
    ConvertResult DwebbleWSResult.AlreadyRunning = EResult.AlreadyRunning ∧
    ConvertResult DwebbleWSResult.NotRunning = EResult.NotRunning ∧
    ConvertResult DwebbleWSResult.BindFailed = EResult.BindFailed ∧
    ConvertResult DwebbleWSResult.TlsError = EResult.TlsError ∧
    ConvertResult DwebbleWSResult.RuntimeError = EResult.RuntimeError ∧
    ConvertResult DwebbleWSResult.SendFailed = EResult.SendFailed ∧
    ConvertResult DwebbleWSResult.ConnectionClosed = EResult.ConnectionClosed ∧
    ∀ n : Int, ConvertResult (DwebbleWSResult.unknown n) = EResult.RuntimeError :=
  ⟨rfl, rfl, rfl, rfl, rfl, rfl, rfl, rfl, rfl, rfl, fun _ => rfl⟩

/-- C2: Start on a running facade returns `AlreadyRunning` with no state
change and no engine call (in particular no duplicate handle creation);
on a non-running facade whose engine create succeeds, an engine `Ok`
sets the running flag and returns `Ok`, and any other engine outcome is
returned through the total mapping with the running flag still false. -/
theorem start_contract (s : FacadeState) (o : StartOracle) :
    (s.bIsRunning = true → Start s o = (s, EResult.AlreadyRunning, [])) ∧
    (s.bIsRunning = false → ∀ hnd, o.createResult = some hnd →
      (o.startResult = DwebbleWSResult.Ok →
        (Start s o).2.1 = EResult.Ok ∧ (Start s o).1.bIsRunning = true) ∧
      (o.startResult ≠ DwebbleWSResult.Ok →
        (Start s o).2.1 = ConvertResult o.startResult ∧
        (Start s o).1.bIsRunning = false)) := by
  constructor
  · intro hb
    simp [Start, hb]
  · intro hb hnd hc
    constructor
    · intro hs
      simp [Start, hb, hc, hs]
    · intro hs
      simp [Start, hb, hc, hs]

/-- Witness for `start_contract`: a concrete failed Start (engine replies
`BindFailed`) returns the mapped outcome and leaves the facade not
running. -/
theorem start_contract_witness :
    (Start (FacadeState.construct sampleConfig)
        ⟨some 1, DwebbleWSResult.BindFailed⟩).2.1 =
      ConvertResult DwebbleWSResult.BindFailed ∧
    (Start (FacadeState.construct sampleConfig)
        ⟨some 1, DwebbleWSResult.BindFailed⟩).1.bIsRunning = false :=
  ((start_contract (FacadeState.construct sampleConfig)
      ⟨some 1, DwebbleWSResult.BindFailed⟩).2 rfl 1 rfl).2 (by decide)

/-- C3: Stop returns `NotRunning` whenever the facade is not running or
holds no handle (so Stop immediately after construction returns
`NotRunning` with `IsRunning` false); otherwise it makes exactly one
engine stop call, clears the running flag unconditionally — whatever the
engine outcome — and returns the mapped outcome. -/
theorem stop_contract (s : FacadeState) (o : DwebbleWSResult) :
    (s.bIsRunning = false ∨ s.ServerHandle = none →
      Stop s o = (s, EResult.NotRunning, [])) ∧
    (∀ hnd, s.ServerHandle = some hnd → s.bIsRunning = true →
      Stop s o =
        ({ s with bIsRunning := false }, ConvertResult o, [EngineCall.stop hnd])) ∧
    (∀ c, Stop (FacadeState.construct c) o =
        (FacadeState.construct c, EResult.NotRunning, []) ∧
      IsRunning (FacadeState.construct c) = false) := by
  refine ⟨?_, ?_, ?_⟩
  · intro h
    cases hh : s.ServerHandle <;> cases hb : s.bIsRunning <;>
      simp_all [Stop]
  · intro hnd hh hb
    simp [Stop, hh, hb]
  · intro c
    exact ⟨rfl, rfl⟩

/-- Witness for `stop_contract`: Stop on a freshly constructed facade
returns `NotRunning` and changes nothing. -/
theorem stop_contract_witness :
    Stop (FacadeState.construct sampleConfig) DwebbleWSResult.Ok =
      (FacadeState.construct sampleConfig, EResult.NotRunning, []) :=
  (stop_contract (FacadeState.construct sampleConfig) DwebbleWSResult.Ok).1
    (Or.inl rfl)

/-- One lifecycle step preserves the facade invariant "running implies a
handle is held": `Start` only sets the flag together with a fresh handle,
and `Stop` only clears the flag. -/
theorem step_preserves_handle (s : FacadeState) (op : FacadeOp)
    (h : s.bIsRunning = true → s.ServerHandle ≠ none) :
    (step s op).1.bIsRunning = true → (step s op).1.ServerHandle ≠ none := by
  cases op with
  | start o =>
      by_cases hb : s.bIsRunning
      · simpa [step, Start, hb] using h
      · cases hc : o.createResult with
        | none => simp [step, Start, hb, hc]
        | some hnd =>
            by_cases hs : o.startResult = DwebbleWSResult.Ok <;>
              simp [step, Start, hb, hc, hs]
  | stop o =>
      cases hh : s.ServerHandle <;> cases hb : s.bIsRunning <;>
        simp_all [step, Stop]

/-- Over any lifecycle trace, "running implies a handle is held" is
preserved. -/
theorem run_preserves_handle (s : FacadeState) (ops : List FacadeOp)
    (h : s.bIsRunning = true → s.ServerHandle ≠ none) :
    (run s ops).1.bIsRunning = true → (run s ops).1.ServerHandle ≠ none := by
  induction ops generalizing s with
  | nil => exact h
  | cons op rest ih => exact ih _ (step_preserves_handle s op h)

/-- C7: a reachable facade holding no engine handle reports itself not
running, rejects Send/SendText/Disconnect with `InvalidHandle`, returns 0
from GetPort and GetConnectionCount, the empty string from Info, no event
from PollEvent, and its destruction makes no engine call. -/
theorem no_handle_invariant (c : FServerConfig) (ops : List FacadeOp)
    (s : FacadeState) (hs : s = (run (FacadeState.construct c) ops).1)
    (h : s.ServerHandle = none)
    (connId pn cn : Nat) (data : List Nat) (text : String)
    (r : DwebbleWSResult) (io : Option String) (po : Option DwebbleWSEvent) :
    IsRunning s = false ∧
    Send s connId data r = (EResult.InvalidHandle, []) ∧
    SendText s connId text r = (EResult.InvalidHandle, []) ∧
    Disconnect s connId r = (EResult.InvalidHandle, []) ∧
    GetPort s pn = (0, []) ∧
    GetConnectionCount s cn = (0, []) ∧
    Info s io = ("", []) ∧
    PollEvent s po = (none, []) ∧
    Destroy s r = (s, []) := by
  subst hs
  have hinv := run_preserves_handle (FacadeState.construct c) ops
    (fun hb => by simp [FacadeState.construct] at hb)
  have hrun : (run (FacadeState.construct c) ops).1.bIsRunning = false := by
    cases hb : (run (FacadeState.construct c) ops).1.bIsRunning
    · rfl
    · exact absurd h (hinv hb)
  exact ⟨hrun, by simp [Send, h], by simp [SendText, h], by simp [Disconnect, h],
    by simp [GetPort, h], by simp [GetConnectionCount, h], by simp [Info, h],
    by simp [PollEvent, h], by simp [Destroy, h]⟩

/-- Witness for `no_handle_invariant`: the freshly constructed facade (the
empty trace) holds no handle, and every conjunct evaluates as stated. -/
theorem no_handle_invariant_witness :
    IsRunning (FacadeState.construct sampleConfig) = false ∧
    Send (FacadeState.construct sampleConfig) 7 [1] DwebbleWSResult.Ok =
      (EResult.InvalidHandle, []) ∧
    SendText (FacadeState.construct sampleConfig) 7 "hi" DwebbleWSResult.Ok =
      (EResult.InvalidHandle, []) ∧
    Disconnect (FacadeState.construct sampleConfig) 7 DwebbleWSResult.Ok =
      (EResult.InvalidHandle, []) ∧
    GetPort (FacadeState.construct sampleConfig) 8080 = (0, []) ∧
    GetConnectionCount (FacadeState.construct sampleConfig) 3 = (0, []) ∧
    Info (FacadeState.construct sampleConfig) (some "x") = ("", []) ∧
    PollEvent (FacadeState.construct sampleConfig) (some pollExampleEvent) =
      (none, []) ∧
    Destroy (FacadeState.construct sampleConfig) DwebbleWSResult.Ok =
      (FacadeState.construct sampleConfig, []) :=
  no_handle_invariant sampleConfig [] (FacadeState.construct sampleConfig)
    rfl rfl 7 8080 3 [1] "hi" DwebbleWSResult.Ok (some "x") (some pollExampleEvent)

/-- C8: PollEvent yields no event exactly when the facade has no handle or
the engine reports no pending event (so it distinguishes an empty queue
from an empty message), and a dequeued `MessageReceived` event of zero
length yields an event with an empty byte payload. The model is a total
function of the single poll reply, so no blocking is involved. -/
theorem poll_empty_message (s : FacadeState) (o : Option DwebbleWSEvent)
    (hnd cid : Nat) (buf : Option (List Nat)) (err : Option String) :
    ((PollEvent s o).1 = none ↔ s.ServerHandle = none ∨ o = none) ∧
    (s.ServerHandle = some hnd →
      (PollEvent s (some
          { event_type := DwebbleWSEventType.MessageReceived
          , connection_id := cid, data := buf, data_len := 0
          , error_message := err })).1 =
        some { EventType := EEventType.MessageReceived, ConnectionId := cid
             , Data := [], ErrorMessage := err.getD "" }) := by
  constructor
  · cases hh : s.ServerHandle <;> cases o <;> simp [PollEvent, hh]
  · intro hh
    cases buf <;> cases err <;> simp [PollEvent, hh, ConvertEventType]

/-- Witness for `poll_empty_message`: after a successful Start, a
zero-length message dequeues as an event with an empty payload. -/
theorem poll_empty_message_witness :
    (PollEvent pollExampleState (some
        { event_type := DwebbleWSEventType.MessageReceived, connection_id := 5
        , data := some [], data_len := 0, error_message := none })).1 =
      some { EventType := EEventType.MessageReceived, ConnectionId := 5
           , Data := [], ErrorMessage := "" } :=
  (poll_empty_message pollExampleState none 1 5 (some []) none).2 rfl

/-- C9: configuration translation passes an explicit absent marker (null)
to the engine for an empty subprotocol list, an empty TLS cert path and an
empty TLS key path — never an empty-but-present string; a non-empty
subprotocol list is serialized as the single comma-joined string; and
Start leaves the stored source configuration unchanged. -/
theorem config_translation (c : FServerConfig) (s : FacadeState)
    (o : StartOracle) :
    (c.Subprotocols = [] → (toFfiConfig c).subprotocols = none) ∧
    (c.Subprotocols ≠ [] →
      (toFfiConfig c).subprotocols =
        some (String.intercalate "," c.Subprotocols)) ∧
    (c.TlsCertPath = "" → (toFfiConfig c).tls_cert_path = none) ∧
    (c.TlsCertPath ≠ "" → (toFfiConfig c).tls_cert_path = some c.TlsCertPath) ∧
    (c.TlsKeyPath = "" → (toFfiConfig c).tls_key_path = none) ∧
    (c.TlsKeyPath ≠ "" → (toFfiConfig c).tls_key_path = some c.TlsKeyPath) ∧
    (Start s o).1.Config = s.Config := by
  refine ⟨?_, ?_, ?_, ?_, ?_, ?_, ?_⟩
  · intro h
    simp [toFfiConfig, h]
  · intro h
    cases hc : c.Subprotocols with
    | nil => exact absurd hc h
    | cons a l => simp [toFfiConfig, hc]
  · intro h
    simp [toFfiConfig, String.isEmpty_iff, h]
  · intro h
    simp [toFfiConfig, String.isEmpty_iff, h]
  · intro h
    simp [toFfiConfig, String.isEmpty_iff, h]
  · intro h
    simp [toFfiConfig, String.isEmpty_iff, h]
  · by_cases hb : s.bIsRunning
    · simp [Start, hb]
    · cases hc : o.createResult with
      | none => simp [Start, hb, hc]
      | some hnd =>
          by_cases hs : o.startResult = DwebbleWSResult.Ok <;>
            simp [Start, hb, hc, hs]

/-- Witness for `config_translation`: the mismatch config translates its
empty fields to null and keeps the non-empty cert path; a two-element
subprotocol list joins to a single comma-separated string. -/
theorem config_translation_witness :
    (toFfiConfig mismatchConfig).subprotocols = none ∧
    (toFfiConfig mismatchConfig).tls_cert_path = some "cert.pem" ∧
    (toFfiConfig mismatchConfig).tls_key_path = none ∧
    (toFfiConfig
        { Port := 0, BindAddress := "127.0.0.1", Subprotocols := ["a", "b"]
        , TlsCertPath := "", TlsKeyPath := "" }).subprotocols =
      some (String.intercalate "," ["a", "b"]) :=
  ⟨(config_translation mismatchConfig (FacadeState.construct mismatchConfig)
      ⟨none, .Ok⟩).1 rfl,
   (config_translation mismatchConfig (FacadeState.construct mismatchConfig)
      ⟨none, .Ok⟩).2.2.2.1 (by decide),
   (config_translation mismatchConfig (FacadeState.construct mismatchConfig)
      ⟨none, .Ok⟩).2.2.2.2.1 rfl,
   (config_translation
      { Port := 0, BindAddress := "127.0.0.1", Subprotocols := ["a", "b"]
      , TlsCertPath := "", TlsKeyPath := "" }
      (FacadeState.construct mismatchConfig) ⟨none, .Ok⟩).2.1 (by decide)⟩

/-- C10: the configured 32-bit port is truncated to 16 bits for the
engine: the translated port is congruent to the configured value modulo
65536 and lies below 65536, a non-running Start hands exactly this
translated config to the engine's create call, and Start never reports
`InvalidParam` of its own accord — it does so only when the engine's own
start outcome was `InvalidParam`. -/
theorem port_truncation (c : FServerConfig) (s : FacadeState)
    (o : StartOracle) :
    Int.ModEq 65536 ((toFfiConfig c).port : Int) c.Port ∧
    (toFfiConfig c).port < 65536 ∧
    (s.bIsRunning = false →
      (Start s o).2.2.head? =
        some (EngineCall.create (toFfiConfig s.Config) o.createResult)) ∧
    ((Start s o).2.1 = EResult.InvalidParam →
      o.startResult = DwebbleWSResult.InvalidParam) := by
  have h2 : (0 : Int) ≤ c.Port.emod 65536 :=
    Int.emod_nonneg c.Port (by norm_num)
  refine ⟨?_, ?_, ?_, ?_⟩
  · show (((c.Port.emod 65536).toNat : Int)) % 65536 = c.Port % 65536
    rw [Int.toNat_of_nonneg h2]
    exact Int.emod_emod_of_dvd _ dvd_rfl
  · show (c.Port.emod 65536).toNat < 65536
    have h1 : c.Port.emod 65536 < 65536 :=
      Int.emod_lt_of_pos c.Port (by norm_num)
    omega
  · intro hb
    cases hc : o.createResult with
    | none => simp [Start, hb, hc]
    | some hnd =>
        by_cases hs : o.startResult = DwebbleWSResult.Ok <;>
          simp [Start, hb, hc, hs]
  · by_cases hb : s.bIsRunning
    · simp [Start, hb]
    · cases hc : o.createResult with
      | none => simp [Start, hb, hc]
      | some hnd =>
          by_cases hs : o.startResult = DwebbleWSResult.Ok
          · simp [Start, hb, hc, hs]
          · simp only [Start, hb, hc, hs, if_false]
            cases o.startResult <;> simp_all [ConvertResult]

/-- Witness for `port_truncation`: configured port 65536 reaches the
engine as a value congruent to 65536 and below 65536 (i.e. 0), via the
create call of a concrete non-running Start. -/
theorem port_truncation_witness :
    Int.ModEq 65536
      ((toFfiConfig { Port := 65536, BindAddress := "127.0.0.1"
                    , Subprotocols := [], TlsCertPath := ""
                    , TlsKeyPath := "" }).port : Int) 65536 ∧
    (toFfiConfig { Port := 65536, BindAddress := "127.0.0.1"
                 , Subprotocols := [], TlsCertPath := ""
                 , TlsKeyPath := "" }).port < 65536 ∧
    (Start (FacadeState.construct sampleConfig)
        ⟨some 1, DwebbleWSResult.Ok⟩).2.2.head? =
      some (EngineCall.create (toFfiConfig sampleConfig) (some 1)) :=
  ⟨(port_truncation
      { Port := 65536, BindAddress := "127.0.0.1", Subprotocols := []
      , TlsCertPath := "", TlsKeyPath := "" }
      (FacadeState.construct sampleConfig) ⟨some 1, DwebbleWSResult.Ok⟩).1,
   (port_truncation
      { Port := 65536, BindAddress := "127.0.0.1", Subprotocols := []
      , TlsCertPath := "", TlsKeyPath := "" }
      (FacadeState.construct sampleConfig) ⟨some 1, DwebbleWSResult.Ok⟩).2.1,
   (port_truncation
      { Port := 65536, BindAddress := "127.0.0.1", Subprotocols := []
      , TlsCertPath := "", TlsKeyPath := "" }
      (FacadeState.construct sampleConfig) ⟨some 1, DwebbleWSResult.Ok⟩).2.2.1 rfl⟩

/-- Splitting an engine-call trace splits its destroyed-handle
accounting. -/
theorem destroyedHandles_append (a b : List EngineCall) :
    destroyedHandles (a ++ b) = destroyedHandles a ++ destroyedHandles b :=
  List.filterMap_append a b _

/-- No lifecycle operation (`Start` or `Stop`) ever calls
`dwebble_rws_server_destroy`. -/
theorem destroyedHandles_step (s : FacadeState) (op : FacadeOp) :
    destroyedHandles (step s op).2 = [] := by
  cases op with
  | start o =>
      by_cases hb : s.bIsRunning
      · simp [step, Start, hb, destroyedHandles]
      · cases hc : o.createResult with
        | none => simp [step, Start, hb, hc, destroyedHandles]
        | some hnd =>
            by_cases hs : o.startResult = DwebbleWSResult.Ok <;>
              simp [step, Start, hb, hc, hs, destroyedHandles]
  | stop o =>
      cases hh : s.ServerHandle <;> cases hb : s.bIsRunning <;>
        simp [step, Stop, hh, hb, destroyedHandles]

/-- No trace of lifecycle operations ever calls
`dwebble_rws_server_destroy`. -/
theorem destroyedHandles_run (s : FacadeState) (ops : List FacadeOp) :
    destroyedHandles (run s ops).2 = [] := by
  induction ops generalizing s with
  | nil => rfl
  | cons op rest ih =>
      show destroyedHandles ((step s op).2 ++ (run (step s op).1 rest).2) = []
      rw [destroyedHandles_append, destroyedHandles_step, ih]
      rfl

/-- Destruction releases exactly the currently held handle: its destroy
accounting is the held handle as a singleton, or empty when no handle is
held. -/
theorem destroyedHandles_destroy (s : FacadeState) (o : DwebbleWSResult) :
    destroyedHandles (Destroy s o).2 = s.ServerHandle.toList := by
  cases hh : s.ServerHandle with
  | none => simp [Destroy, hh, destroyedHandles]
  | some hnd =>
      have hstop : destroyedHandles (Stop s o).2.2 = [] :=
        destroyedHandles_step s (.stop o)
      have hd : (Destroy s o).2 = (Stop s o).2.2 ++ [.destroy hnd] := by
        simp [Destroy, hh]
      rw [hd, destroyedHandles_append, hstop]
      rfl

/-- Destroying a facade that holds no handle is a no-op: no engine call
and no state change. -/
theorem destroy_no_handle (s : FacadeState) (o : DwebbleWSResult)
    (h : s.ServerHandle = none) : Destroy s o = (s, []) := by
  simp [Destroy, h]

/-- C1 (amended): the engine handle is not allocated at facade
construction — a constructed facade holds no handle; across any sequence
of Start/Stop calls no handle is ever released, destruction releases
exactly the currently held handle (exactly once, with its implicit Stop
first), leaves the facade handle-less, and a second destruction makes no
engine call. (Handles orphaned when Start overwrites a held handle are
never released — see the counterexample.) -/
theorem handle_lifecycle_amended (c : FServerConfig) (ops : List FacadeOp)
    (o o2 : DwebbleWSResult) :
    (FacadeState.construct c).ServerHandle = none ∧
    destroyedHandles (run (FacadeState.construct c) ops).2 = [] ∧
    destroyedHandles (Destroy (run (FacadeState.construct c) ops).1 o).2 =
      ((run (FacadeState.construct c) ops).1.ServerHandle).toList ∧
    (Destroy (run (FacadeState.construct c) ops).1 o).1.ServerHandle = none ∧
    (Destroy (Destroy (run (FacadeState.construct c) ops).1 o).1 o2).2 = [] := by
  have h4 : (Destroy (run (FacadeState.construct c) ops).1 o).1.ServerHandle
      = none := by
    cases hh : (run (FacadeState.construct c) ops).1.ServerHandle <;>
      simp [Destroy, hh]
  exact ⟨rfl, destroyedHandles_run _ _, destroyedHandles_destroy _ o, h4,
    by rw [destroy_no_handle _ o2 h4]⟩

/-- Counterexample to C1: over the host sequence Start, Stop, Start (the
engine handing out handle 1 then handle 2, all calls Ok) followed by
destruction, handle 1 is created but never destroyed — the second Start
overwrote it — so a handle is leaked; and the constructed facade holds no
handle, so no handle is allocated at construction either. -/
theorem handle_leak_on_restart_counterexample :
    (FacadeState.construct sampleConfig).ServerHandle = none ∧
    1 ∈ createdHandles restartTraceCalls ∧
    1 ∉ destroyedHandles restartTraceCalls ∧
    2 ∈ createdHandles restartTraceCalls ∧
    destroyedHandles restartTraceCalls = [2] := by
  decide

/-- C4 (amended): for a non-running facade whose configuration has exactly
one TLS path present and whose engine create succeeds, Start — with the
engine (spec-modelled) reporting the mismatch as `TlsError` — returns
`TlsError`, never `Ok` and never `InvalidParam`; the facade performs no
local TLS check: the call reaches the engine boundary (the engine start
call is made). -/
theorem tls_mismatch_amended (s : FacadeState) (hnd : Nat)
    (hb : s.bIsRunning = false)
    (hm : s.Config.TlsCertPath.isEmpty ≠ s.Config.TlsKeyPath.isEmpty) :
    (Start s ⟨some hnd, engineTlsMismatchOutcome⟩).2.1 = EResult.TlsError ∧
    (Start s ⟨some hnd, engineTlsMismatchOutcome⟩).2.1 ≠ EResult.Ok ∧
    (Start s ⟨some hnd, engineTlsMismatchOutcome⟩).2.1 ≠ EResult.InvalidParam ∧
    EngineCall.start hnd ∈ (Start s ⟨some hnd, engineTlsMismatchOutcome⟩).2.2 := by
  refine ⟨?_, ?_, ?_, ?_⟩ <;>
    simp [Start, hb, engineTlsMismatchOutcome, ConvertResult]

/-- Witness for `tls_mismatch_amended`: the concrete cert-only config from
a fresh facade. -/
theorem tls_mismatch_amended_witness :
    (Start (FacadeState.construct mismatchConfig)
        ⟨some 1, engineTlsMismatchOutcome⟩).2.1 = EResult.TlsError ∧
    EngineCall.start 1 ∈ (Start (FacadeState.construct mismatchConfig)
        ⟨some 1, engineTlsMismatchOutcome⟩).2.2 :=
  ⟨(tls_mismatch_amended (FacadeState.construct mismatchConfig) 1 rfl
      (by decide)).1,
   (tls_mismatch_amended (FacadeState.construct mismatchConfig) 1 rfl
      (by decide)).2.2.2⟩

/-- Counterexample to C4: on the concrete cert-only config the facade does
not detect caller misuse locally — Start hands the translated config to
the engine's create call (the call reaches the Engine Boundary) and
returns the engine's `TlsError`, not a locally produced `InvalidParam`. -/
theorem tls_not_local_counterexample :
    (Start (FacadeState.construct mismatchConfig)
        ⟨some 1, engineTlsMismatchOutcome⟩).2.1 = EResult.TlsError ∧
    (Start (FacadeState.construct mismatchConfig)
        ⟨some 1, engineTlsMismatchOutcome⟩).2.1 ≠ EResult.InvalidParam ∧
    EngineCall.create (toFfiConfig mismatchConfig) (some 1) ∈
      (Start (FacadeState.construct mismatchConfig)
        ⟨some 1, engineTlsMismatchOutcome⟩).2.2 := by
  decide

/-- C5 (amended): on every successful dequeue PollEvent copies the
engine-produced event into a host-owned value (type, connection id, the
full byte buffer and the error text all carried over by value), but it
releases no engine-owned buffer — its only engine call is the poll
itself; the engine-owned string the facade does release immediately after
copying is the Info string. -/
theorem poll_copy_amended (s : FacadeState) (hnd : Nat) (e : DwebbleWSEvent)
    (str : String) (hh : s.ServerHandle = some hnd) :
    (PollEvent s (some e)).2 = [EngineCall.poll hnd] ∧
    (∀ buf, e.data = some buf → e.data_len = buf.length →
      ∃ fe, (PollEvent s (some e)).1 = some fe ∧
        fe.EventType = ConvertEventType e.event_type ∧
        fe.ConnectionId = e.connection_id ∧
        fe.Data = buf ∧
        fe.ErrorMessage = e.error_message.getD "") ∧
    Info s (some str) = (str, [EngineCall.info hnd, EngineCall.freeString]) := by
  refine ⟨by simp [PollEvent, hh], ?_, by simp [Info, hh]⟩
  intro buf hbuf hlen
  obtain ⟨et, cid, dat, dl, em⟩ := e
  simp only at hbuf hlen
  subst hbuf hlen
  have hp : (PollEvent s (some ⟨et, cid, some buf, buf.length, em⟩)).1 =
      some { EventType := ConvertEventType et, ConnectionId := cid
           , Data := buf, ErrorMessage := em.getD "" } := by
    cases buf <;> cases em <;> simp [PollEvent, hh]
  exact ⟨_, hp, rfl, rfl, rfl, rfl⟩

/-- Witness for `poll_copy_amended`: a concrete running facade dequeues a
three-byte message — the payload is copied whole, the only engine call is
the poll, and Info's engine string is freed right after copying. -/
theorem poll_copy_amended_witness :
    (PollEvent pollExampleState (some pollExampleEvent)).2 =
      [EngineCall.poll 1] ∧
    (∃ fe, (PollEvent pollExampleState (some pollExampleEvent)).1 = some fe ∧
      fe.EventType = ConvertEventType pollExampleEvent.event_type ∧
      fe.ConnectionId = pollExampleEvent.connection_id ∧
      fe.Data = [1, 2, 3] ∧
      fe.ErrorMessage = "") ∧
    Info pollExampleState (some "127.0.0.1:8080") =
      ("127.0.0.1:8080", [EngineCall.info 1, EngineCall.freeString]) :=
  ⟨(poll_copy_amended pollExampleState 1 pollExampleEvent "127.0.0.1:8080"
      rfl).1,
   (poll_copy_amended pollExampleState 1 pollExampleEvent "127.0.0.1:8080"
      rfl).2.1 [1, 2, 3] rfl rfl,
   (poll_copy_amended pollExampleState 1 pollExampleEvent "127.0.0.1:8080"
      rfl).2.2⟩

/-- Counterexample to C5: on a concrete successful dequeue of a message
with an engine-owned byte buffer, the facade's only engine call is the
poll itself — no release call of any kind follows the copy, although the
copied event is returned. -/
theorem poll_no_release_counterexample :
    (PollEvent pollExampleState (some pollExampleEvent)).2 =
      [EngineCall.poll 1] ∧
    EngineCall.freeString ∉ (PollEvent pollExampleState
      (some pollExampleEvent)).2 ∧
    (PollEvent pollExampleState (some pollExampleEvent)).1 =
      some { EventType := EEventType.MessageReceived, ConnectionId := 5
           , Data := [1, 2, 3], ErrorMessage := "" } := by
  decide

end Dwebble
